import Mathlib

/-!
Verification development for the Janus gateway supervision core of the
OctoPrint-Obico plugin (`octoprint_obico/janus.py`): instance-aware port
allocation, gateway process supervision, and the relay link.

The Python module is shallowly embedded below.  Pure computations
(`get_instance_port_offset`, `calculate_janus_ports`) are translated as
Lean functions over an explicit filesystem/process-liveness state; the
stateful supervisor methods (`start`, `shutdown`, `kill_janus_if_running`,
`pass_to_janus`, `process_janus_msg`) are translated as state-passing
functions whose result records the externally observable effects
(processes signaled, lock files written or removed, messages forwarded,
exceptions reported to Sentry, exceptions escaping to the caller).
-/

namespace ObicoJanus

/-! ## SHA-256

`get_instance_port_offset` hashes the instance basedir with
`hashlib.sha256`.  We implement SHA-256 (FIPS 180-4) over byte lists so the
hash-derived port arithmetic can be verified concretely. -/

/-- Truncate to a 32-bit word. -/
def w32 (x : Nat) : Nat := x % 4294967296

/-- 32-bit right rotation. -/
def rotr32 (n x : Nat) : Nat := w32 ((x >>> n) ||| (x <<< (32 - n)))

def sigSmall0 (x : Nat) : Nat := (rotr32 7 x) ^^^ (rotr32 18 x) ^^^ (x >>> 3)

def sigSmall1 (x : Nat) : Nat := (rotr32 17 x) ^^^ (rotr32 19 x) ^^^ (x >>> 10)

def sigBig0 (x : Nat) : Nat := (rotr32 2 x) ^^^ (rotr32 13 x) ^^^ (rotr32 22 x)

def sigBig1 (x : Nat) : Nat := (rotr32 6 x) ^^^ (rotr32 11 x) ^^^ (rotr32 25 x)

/-- SHA-256 choice function; ¬x is taken as xor against the 32-bit mask. -/
def chF (x y z : Nat) : Nat := (x &&& y) ^^^ ((x ^^^ 4294967295) &&& z)

def majF (x y z : Nat) : Nat := (x &&& y) ^^^ (x &&& z) ^^^ (y &&& z)

/-- The 64 SHA-256 round constants (decimal). -/
def sha256K : List Nat :=
  [1116352408, 1899447441, 3049323471, 3921009573, 961987163, 1508970993,
   2453635748, 2870763221, 3624381080, 310598401, 607225278, 1426881987,
   1925078388, 2162078206, 2614888103, 3248222580, 3835390401, 4022224774,
   264347078, 604807628, 770255983, 1249150122, 1555081692, 1996064986,
   2554220882, 2821834349, 2952996808, 3210313671, 3336571891, 3584528711,
   113926993, 338241895, 666307205, 773529912, 1294757372, 1396182291,
   1695183700, 1986661051, 2177026350, 2456956037, 2730485921, 2820302411,
   3259730800, 3345764771, 3516065817, 3600352804, 4094571909, 275423344,
   430227734, 506948616, 659060556, 883997877, 958139571, 1322822218,
   1537002063, 1747873779, 1955562222, 2024104815, 2227730452, 2361852424,
   2428436474, 2756734187, 3204031479, 3329325298]

/-- The initial SHA-256 hash state (decimal). -/
def sha256H0 : List Nat :=
  [1779033703, 3144134277, 1013904242, 2773480762, 1359893119, 2600822924,
   528734635, 1541459225]

/-- Extend 16 message-schedule words to 64. -/
def sha256Schedule (ws : Array Nat) : Array Nat :=
  (List.range 48).foldl
    (fun acc i =>
      let t := i + 16
      acc.push (w32 (sigSmall1 (acc.getD (t - 2) 0) + acc.getD (t - 7) 0 +
                     sigSmall0 (acc.getD (t - 15) 0) + acc.getD (t - 16) 0)))
    ws

/-- One SHA-256 compression of a 16-word chunk into the running hash. -/
def sha256Compress (H : List Nat) (chunk : List Nat) : List Nat :=
  let W := sha256Schedule chunk.toArray
  let st0 := (H.getD 0 0, H.getD 1 0, H.getD 2 0, H.getD 3 0,
              H.getD 4 0, H.getD 5 0, H.getD 6 0, H.getD 7 0)
  let stN := (List.range 64).foldl
    (fun st i =>
      let (a, b, c, d, e, f, g, h) := st
      let t1 := w32 (h + sigBig1 e + chF e f g + sha256K.getD i 0 + W.getD i 0)
      let t2 := w32 (sigBig0 a + majF a b c)
      (w32 (t1 + t2), a, b, c, w32 (d + t1), e, f, g)) st0
  let (a, b, c, d, e, f, g, h) := stN
  [w32 (H.getD 0 0 + a), w32 (H.getD 1 0 + b), w32 (H.getD 2 0 + c), w32 (H.getD 3 0 + d),
   w32 (H.getD 4 0 + e), w32 (H.getD 5 0 + f), w32 (H.getD 6 0 + g), w32 (H.getD 7 0 + h)]

/-- `n` bytes of `v`, big-endian. -/
def bytesBE : Nat → Nat → List Nat
  | 0, _ => []
  | n + 1, v => bytesBE n (v / 256) ++ [v % 256]

/-- SHA-256 padding: append 0x80, zeros, and the 64-bit big-endian bit length. -/
def sha256Pad (msg : List Nat) : List Nat :=
  msg ++ [0x80] ++ List.replicate ((119 - msg.length % 64) % 64) 0 ++ bytesBE 8 (msg.length * 8)

/-- Group bytes into big-endian 32-bit words. -/
def toWordsBE : List Nat → List Nat
  | b0 :: b1 :: b2 :: b3 :: rest => (((b0 * 256 + b1) * 256 + b2) * 256 + b3) :: toWordsBE rest
  | _ => []

/-- Split a byte list into 64-byte chunks.  Structural recursion on a fuel
bound (each step consumes at least one byte, so `l.length` steps suffice). -/
def chunks64Go : Nat → List Nat → List (List Nat)
  | 0, _ => []
  | _, [] => []
  | fuel + 1, l => l.take 64 :: chunks64Go fuel (l.drop 64)

def chunks64 (l : List Nat) : List (List Nat) := chunks64Go l.length l

/-- SHA-256 of a byte list, as the list of eight 32-bit hash words. -/
def sha256 (msg : List Nat) : List Nat :=
  (chunks64 (sha256Pad msg)).foldl (fun H c => sha256Compress H (toWordsBE c)) sha256H0

/-- UTF-8 encoding of one character (Python `str.encode()`). -/
def utf8EncodeChar (c : Char) : List Nat :=
  let n := c.toNat
  if n < 0x80 then [n]
  else if n < 0x800 then [0xC0 ||| (n >>> 6), 0x80 ||| (n &&& 0x3F)]
  else if n < 0x10000 then
    [0xE0 ||| (n >>> 12), 0x80 ||| ((n >>> 6) &&& 0x3F), 0x80 ||| (n &&& 0x3F)]
  else
    [0xF0 ||| (n >>> 18), 0x80 ||| ((n >>> 12) &&& 0x3F),
     0x80 ||| ((n >>> 6) &&& 0x3F), 0x80 ||| (n &&& 0x3F)]

/-- UTF-8 encoding of a string, as done by Python's `basedir.encode()`. -/
def strEncode (s : String) : List Nat := (s.data.map utf8EncodeChar).flatten

/-- `int(hashlib.sha256(b).hexdigest()[:16], 16)`: the first 16 hex digits of
the digest are its first 8 bytes, i.e. the first two hash words big-endian. -/
def sha256HexPrefix16 (msg : List Nat) : Nat :=
  (sha256 msg).getD 0 0 * 4294967296 + (sha256 msg).getD 1 0

/-! ## Port allocation (`janus.py` lines 27-130)

`get_octoprint_basedir` collects the instance identity from command-line
arguments, the environment, or the default location; it is modelled as an
input (`basedir : String`), the empty string standing for Python's falsy
`''` when no basedir was found.  The filesystem (`/tmp/obico-janus-*.pid`
lock files) and process liveness (`psutil.pid_exists`) are modelled as an
explicit state threaded through the allocator. -/

/-- `JANUS_BASE_PORT` (janus.py line 28). -/
def JANUS_BASE_PORT : Nat := 17730

/-- `JANUS_PORT_GAP` (janus.py line 30). -/
def JANUS_PORT_GAP : Nat := 20

/-- `get_instance_port_offset` (janus.py lines 68-85):
`int(hashlib.sha256(basedir.encode()).hexdigest()[:16], 16) % 10 * 20`
when the basedir is non-empty, else 0. -/
def get_instance_port_offset (basedir : String) : Nat :=
  if basedir ≠ "" then
    let hash_val := sha256HexPrefix16 (strEncode basedir)
    let slot := hash_val % 10
    slot * JANUS_PORT_GAP
  else 0

/-- Contents of one `/tmp/obico-janus-{port}.pid` lock file as the allocator
classifies them: absent; readable with integer content (`int(f.read().strip())`
succeeds, giving a pid); or corrupt (the open/read raises, or the content is
not an integer — the `ValueError`/`FileNotFoundError`/`PermissionError` arm,
janus.py line 111). -/
inductive LockFile where
  | absent
  | valid (pid : Int)
  | corrupt
deriving DecidableEq, Repr

/-- Filesystem and process state seen by `calculate_janus_ports`:
the lock file at each port, whether `os.remove` on that port's lock file
succeeds (a failing removal raises one of the caught exception classes and
is retried/swallowed, janus.py lines 113-116), and `psutil.pid_exists`. -/
structure FsState where
  lock : Nat → LockFile
  removeOk : Nat → Bool
  alive : Int → Bool

/-- Delete the lock file at port `p`. -/
def removeLock (fs : FsState) (p : Nat) : FsState :=
  { fs with lock := fun q => if q = p then .absent else fs.lock q }

/-- One iteration of the probe loop in `calculate_janus_ports`
(janus.py lines 97-117) at candidate port `p`: `some (port, fs)` accepts the
candidate (with the filesystem after any reclaim), `none` means the lock
holder is alive and the loop continues to the next candidate.
  * no lock file: accept (line 100-101);
  * readable integer pid that is not alive: stale — remove the lock and
    accept (lines 107-110); if the removal raises a caught exception class
    the flow falls into the `except` arm, which retries the removal
    (failing again, swallowed) and still accepts (lines 111-117);
  * corrupt lock: remove if possible (failure swallowed) and accept
    (lines 111-117);
  * readable integer pid that is alive: live collision — continue. -/
def tryPort (fs : FsState) (p : Nat) : Option (Nat × FsState) :=
  match fs.lock p with
  | .absent => some (p, fs)
  | .valid pid =>
      if fs.alive pid then none
      else if fs.removeOk p then some (p, removeLock fs p) else some (p, fs)
  | .corrupt =>
      if fs.removeOk p then some (p, removeLock fs p) else some (p, fs)

/-- Result of `calculate_janus_ports`: the returned port, the filesystem
after any reclaims, and whether the degraded-mode warning
(`'Could not find available Janus port, using ...'`, janus.py line 120)
was logged. -/
structure AllocResult where
  port : Nat
  fs : FsState
  degradedWarning : Bool

/-- The `for i in range(5)` probe loop of `calculate_janus_ports` over the
remaining candidate indices; on exhaustion, fall back to the base port with
the degraded-mode warning (janus.py lines 119-121). -/
def probeFrom (fs : FsState) (base : Nat) : List Nat → AllocResult
  | [] => ⟨base, fs, true⟩
  | i :: rest =>
      match tryPort fs (base + i * JANUS_PORT_GAP) with
      | some (p, fs') => ⟨p, fs', false⟩
      | none => probeFrom fs base rest

/-- `calculate_janus_ports` (janus.py lines 87-121). -/
def calculate_janus_ports (fs : FsState) (basedir : String) : AllocResult :=
  let base_port := JANUS_BASE_PORT + get_instance_port_offset basedir
  probeFrom fs base_port [0, 1, 2, 3, 4]

/-- The candidate base port for an identity (janus.py line 92). -/
def candidateBase (basedir : String) : Nat :=
  JANUS_BASE_PORT + get_instance_port_offset basedir

/-- `JANUS_WS_PORT = calculate_janus_ports()` (janus.py line 124),
as a function of the module-load-time filesystem state and identity. -/
def JANUS_WS_PORT (fs : FsState) (basedir : String) : Nat :=
  (calculate_janus_ports fs basedir).port

/-- `JANUS_ADMIN_WS_PORT = JANUS_WS_PORT + 1` (janus.py line 125). -/
def JANUS_ADMIN_WS_PORT (fs : FsState) (basedir : String) : Nat :=
  JANUS_WS_PORT fs basedir + 1

/-- Whether the lock file at port `p` records a live pid (the only case in
which the probe loop moves past a candidate). -/
def liveHeld (fs : FsState) (p : Nat) : Bool :=
  match fs.lock p with
  | .valid pid => fs.alive pid
  | _ => false

/-! ## Gateway supervision (`JanusConn`, janus.py lines 132-224)

The gateway process, the single pid lock file at `janus_pid_file_path()`,
and the websocket client are external resources; their relevant behaviour
is an input, and each method's embedding returns the externally observable
effects it performs. -/

/-- A successfully spawned gateway process: its pid, the lines it emits on
its combined output stream before end-of-stream, and the exit code that
`janus_proc.wait()` reaps. -/
structure ProcRun where
  pid : Int
  outputLines : List String
  exitCode : Int
deriving DecidableEq, Repr

/-- Outcome of `subprocess.Popen` on the gateway command: a running process,
or an exception (missing or unspawnable executable). -/
inductive SpawnOutcome where
  | ok (p : ProcRun)
  | fail
deriving DecidableEq, Repr

/-- Observable effects of one run of the monitor body `run_janus_forever`:
the pid written to the lock file (if the write was reached), the lines
forwarded to the logger, the exit code reaped at end-of-stream, whether
`self.plugin.sentry.captureException()` ran, and whether an exception
escaped the function. -/
structure MonitorResult where
  lockWrittenPid : Option Int
  loggedLines : List String
  reapedExit : Option Int
  sentryCaptured : Bool
  escaped : Bool
deriving DecidableEq, Repr

/-- The `run_janus_forever` closure inside `JanusConn.start`
(janus.py lines 142-162), which runs on a background thread.  Its whole body
is a `try` whose `except Exception` reports to Sentry.  On a successful
spawn it writes the pid file, logs each output line, and at end-of-stream
reaps the exit code with `janus_proc.wait()`, logs
`'Janus quit with exit code ...'` and returns.  `shutting_down` is the
supervisor flag, reachable through `self`; the body never reads it, so the
result does not depend on it. -/
def run_janus_forever (shutting_down : Bool) (spawn : SpawnOutcome) : MonitorResult :=
  match spawn with
  | .fail =>
      { lockWrittenPid := none, loggedLines := [], reapedExit := none,
        sentryCaptured := true, escaped := false }
  | .ok p =>
      { lockWrittenPid := some p.pid,
        loggedLines := p.outputLines.map (fun l => "JANUS: " ++ l),
        reapedExit := some p.exitCode,
        sentryCaptured := false, escaped := false }

/-- Environment of `kill_janus_if_running` (janus.py lines 192-205): the
content of the single lock file at `janus_pid_file_path()` (`none` when the
file is absent, in which case `open` raises `FileNotFoundError`), and
whether each fallible step succeeds: reading the file, the
`subprocess.run(['kill', ...], check=True)` command, the bounded
`wait_for_port_to_close`, and `os.remove` of the lock file. -/
structure LockWorld where
  lockContent : Option String
  readOk : Bool
  killOk : Bool
  waitOk : Bool
  removeOk : Bool
deriving DecidableEq, Repr

/-- Observable effects of `kill_janus_if_running`: the pid-file content
passed to the `kill` command if it was invoked, whether the
`'Failed to shutdown Janus - ...'` warning was logged, whether the
`os.remove` of the lock file was attempted, the resulting lock-file state,
and whether any exception escaped to the caller. -/
structure KillResult where
  signaledPid : Option String
  warned : Bool
  removeAttempted : Bool
  world : LockWorld
  escaped : Bool
deriving DecidableEq, Repr

/-- `JanusConn.kill_janus_if_running` (janus.py lines 192-205).  The first
`try` opens and reads the pid file, invokes `kill` on its content
(`check=True`, so a failing kill raises `CalledProcessError`), and waits
for the port to close; any exception in it is caught by `except Exception`
and logged as a warning.  The second `try` then removes the lock file
unconditionally, a bare `except: pass` swallowing any failure. -/
def kill_janus_if_running (w : LockWorld) : KillResult :=
  let sw : Option String × Bool :=
    match w.lockContent with
    | none => (none, true)
    | some c =>
        if !w.readOk then (none, true)
        else if !w.killOk then (some c, true)
        else if !w.waitOk then (some c, true)
        else (some c, false)
  let world' :=
    if w.lockContent.isSome && w.removeOk then { w with lockContent := none } else w
  { signaledPid := sw.1, warned := sw.2, removeAttempted := true,
    world := world', escaped := false }

/-- The websocket client `self.janus_ws`, reduced to what `JanusConn`
observes of it: whether `connected()` holds and the messages passed to
`send`. -/
structure WsClient where
  isConnected : Bool
  sentMsgs : List String
deriving DecidableEq, Repr

/-- The mutable state of a `JanusConn` instance
(`__init__`, janus.py lines 134-138; `plugin` and `janus_server` are
read-only collaborators). -/
structure JanusConnState where
  janus_ws : Option WsClient
  shutting_down : Bool
deriving DecidableEq, Repr

/-- `JanusConn.__init__` (janus.py lines 134-138): no websocket yet, the
shutdown flag clear. -/
def initJanusConn : JanusConnState :=
  { janus_ws := none, shutting_down := false }

/-- `JanusConn.connected` (janus.py lines 169-170):
`self.janus_ws and self.janus_ws.connected()`. -/
def connected (st : JanusConnState) : Bool :=
  match st.janus_ws with
  | some ws => ws.isConnected
  | none => false

/-- `JanusConn.pass_to_janus` (janus.py lines 172-174): forward `msg` to the
websocket only when connected; otherwise fall through, changing nothing. -/
def pass_to_janus (st : JanusConnState) (msg : String) : JanusConnState :=
  if connected st then
    { st with
      janus_ws := st.janus_ws.map (fun ws => { ws with sentMsgs := ws.sentMsgs ++ [msg] }) }
  else st

/-- `JanusConn.shutdown` (janus.py lines 207-215): set the shutdown flag,
close and drop any websocket, then run the lock-reclaim step.  Returns the
new connection state and the reclaim step's effects. -/
def shutdown (st : JanusConnState) (w : LockWorld) : JanusConnState × KillResult :=
  let st' : JanusConnState := { janus_ws := none, shutting_down := true }
  (st', kill_janus_if_running w)

/-- Write the freshly spawned pid to the lock file
(janus.py lines 151-152). -/
def writeLock (w : LockWorld) (pid : Int) : LockWorld :=
  { w with lockContent := some (toString pid) }

/-- Effects of `JanusConn.start` (janus.py lines 140-167) on the lock file
and the monitor, for a given spawn outcome.  `start` first runs
`kill_janus_if_running`, then hands `run_janus_forever` to a background
thread (`run_in_thread`); the spawn itself happens on that thread, inside
the monitor's `try`/`except`, so no spawn exception can reach `start`'s
caller (`spawnErrorRaisedToCaller` records this).  The subsequent
`wait_for_janus`/`start_janus_ws` steps touch neither the lock file nor the
spawn outcome and are outside this model. -/
structure StartResult where
  world : LockWorld
  monitor : MonitorResult
  spawnErrorRaisedToCaller : Bool
deriving DecidableEq, Repr

/-- `JanusConn.start` (janus.py lines 140-167), restricted to its lock-file
and monitor effects. -/
def start (st : JanusConnState) (w : LockWorld) (spawn : SpawnOutcome) : StartResult :=
  let k := kill_janus_if_running w
  let m := run_janus_forever st.shutting_down spawn
  let w' :=
    match m.lockWrittenPid with
    | some pid => writeLock k.world pid
    | none => k.world
  { world := w', monitor := m, spawnErrorRaisedToCaller := false }

/-- The tagged envelope `dict(janus=raw_msg)` handed to
`self.plugin.send_ws_msg_to_server` (janus.py line 222). -/
structure Envelope where
  janus : String
deriving DecidableEq, Repr

/-- Observable effects of `process_janus_msg` on one inbound message: the
envelope forwarded upstream (if any), whether Sentry captured an exception,
and whether an exception escaped to the websocket layer. -/
structure RelayResult where
  forwardedEnvelope : Option Envelope
  sentryCaptured : Bool
  escaped : Bool
deriving DecidableEq, Repr

/-- `JanusConn.process_janus_msg` (janus.py lines 217-224).  The body first
runs `json.loads(raw_msg)` — whose success is abstracted as
`parseOk raw_msg` — then logs the parsed message and forwards the raw
message wrapped in the envelope; any exception (in particular a parse
failure) is caught by the bare `except` and reported to Sentry, and the
message is not forwarded. -/
def process_janus_msg (parseOk : String → Bool) (raw_msg : String) : RelayResult :=
  if parseOk raw_msg then
    { forwardedEnvelope := some ⟨raw_msg⟩, sentryCaptured := false, escaped := false }
  else
    { forwardedEnvelope := none, sentryCaptured := true, escaped := false }

/-- Candidate port number `k` of an identity's probe sequence
(`base_port + i * JANUS_PORT_GAP`, janus.py line 97). -/
def cand (basedir : String) (k : Nat) : Nat :=
  candidateBase basedir + k * JANUS_PORT_GAP

/-- A concrete filesystem with no lock files at all, every removal
succeeding and no process alive. -/
def emptyFs : FsState :=
  { lock := fun _ => .absent, removeOk := fun _ => true, alive := fun _ => false }

/-- Concrete scenario state for the two-stale-locks scenario at identity
`/home/user/.octoprint` (whose candidate base port is 17850): stale lock
files — recording pid 4242, not alive — at the first two candidate ports. -/
def fsTwoStale : FsState :=
  { lock := fun q => if q = 17850 ∨ q = 17870 then .valid 4242 else .absent,
    removeOk := fun _ => true,
    alive := fun _ => false }

/-- Concrete two-stale-locks state for the empty identity (candidate base
port 17730): stale locks at the first two candidate ports 17730, 17750. -/
def fsTwoStaleAtFloor : FsState :=
  { lock := fun q => if q = 17730 ∨ q = 17750 then .valid 4242 else .absent,
    removeOk := fun _ => true,
    alive := fun _ => false }

/-- Concrete state with a single stale lock (pid 4242, dead) at port 17730,
the empty identity's first candidate. -/
def fsStaleAtFloor : FsState :=
  { lock := fun q => if q = 17730 then .valid 4242 else .absent,
    removeOk := fun _ => true,
    alive := fun _ => false }

/-- Concrete state whose lock at port 17730 is held by the live pid 7;
port 17750 is free. -/
def fsLiveAtFloor : FsState :=
  { lock := fun q => if q = 17730 then .valid 7 else .absent,
    removeOk := fun _ => true,
    alive := fun pid => pid == 7 }

/-! ## Validation of the SHA-256 embedding -/

set_option maxRecDepth 400000 in
/-- FIPS 180-4 test vector: the embedding computes the standard digest. -/
theorem sha256_nist_vector_abc : sha256 (strEncode "abc") =
    [3128432319, 2399260650, 1094795486, 1571693091,
     2953011619, 2518121116, 3021012833, 4060091821] := by decide

set_option maxRecDepth 400000 in
/-- The spec's scenario identity `/home/user/.octoprint` hashes to slot 6,
so its candidate base port is 17730 + 20·6 = 17850. -/
theorem scenario_identity_slot :
    sha256HexPrefix16 (strEncode "/home/user/.octoprint") % 10 = 6 ∧
    candidateBase "/home/user/.octoprint" = 17850 := by decide

/-! ## Properties of the probe loop -/

/-- Characterization of one probe-loop iteration: the candidate is skipped
exactly when its lock holder is alive; otherwise it is accepted, with the
lock removed whenever one was present and its removal succeeds. -/
lemma tryPort_eq (fs : FsState) (p : Nat) :
    tryPort fs p =
      if liveHeld fs p then none
      else some (p, if fs.lock p ≠ .absent ∧ fs.removeOk p = true
                    then removeLock fs p else fs) := by
  unfold tryPort liveHeld
  cases hl : fs.lock p with
  | absent => simp
  | valid pid =>
      cases ha : fs.alive pid with
      | true => simp [ha]
      | false => cases hr : fs.removeOk p <;> simp [ha, hr]
  | corrupt => cases hr : fs.removeOk p <;> simp [hr]

/-- If every index in `l` points at a live-held candidate, the probe loop
exhausts and falls back to the base port with the degraded-mode warning. -/
lemma probeFrom_all_live (fs : FsState) (base : Nat) (l : List Nat)
    (h : ∀ i ∈ l, liveHeld fs (base + i * JANUS_PORT_GAP) = true) :
    probeFrom fs base l = ⟨base, fs, true⟩ := by
  induction l with
  | nil => rfl
  | cons i rest ih =>
      have hn : tryPort fs (base + i * JANUS_PORT_GAP) = none := by
        simp [tryPort_eq, h i (by simp)]
      simp only [probeFrom, hn]
      exact ih (fun j hj => h j (by simp [hj]))

/-- If the indices in `l1` all point at live-held candidates and candidate
`k` is not live-held, the probe loop accepts candidate `k`. -/
lemma probeFrom_accept (fs : FsState) (base : Nat) (l1 l2 : List Nat) (k : Nat)
    (h1 : ∀ i ∈ l1, liveHeld fs (base + i * JANUS_PORT_GAP) = true)
    (h2 : liveHeld fs (base + k * JANUS_PORT_GAP) = false) :
    probeFrom fs base (l1 ++ k :: l2) =
      ⟨base + k * JANUS_PORT_GAP,
       if fs.lock (base + k * JANUS_PORT_GAP) ≠ .absent ∧
          fs.removeOk (base + k * JANUS_PORT_GAP) = true
       then removeLock fs (base + k * JANUS_PORT_GAP) else fs,
       false⟩ := by
  induction l1 with
  | nil =>
      simp only [List.nil_append, probeFrom, tryPort_eq, h2]
      simp
  | cons i rest ih =>
      have hn : tryPort fs (base + i * JANUS_PORT_GAP) = none := by
        simp [tryPort_eq, h1 i (by simp)]
      simp only [List.cons_append, probeFrom, hn]
      exact ih (fun j hj => h1 j (by simp [hj]))

/-- Unless the degraded-mode fallback fired, the port the probe loop
returns is never live-held. -/
lemma probeFrom_not_live (fs : FsState) (base : Nat) (l : List Nat)
    (h : (probeFrom fs base l).degradedWarning = false) :
    liveHeld fs (probeFrom fs base l).port = false := by
  induction l with
  | nil => simp [probeFrom] at h
  | cons i rest ih =>
      by_cases hl : liveHeld fs (base + i * JANUS_PORT_GAP) = true
      · have hn : tryPort fs (base + i * JANUS_PORT_GAP) = none := by simp [tryPort_eq, hl]
        simp only [probeFrom, hn] at h ⊢
        exact ih h
      · have hl' : liveHeld fs (base + i * JANUS_PORT_GAP) = false := by
          cases hme : liveHeld fs (base + i * JANUS_PORT_GAP)
          · rfl
          · exact absurd hme hl
        simp only [probeFrom, tryPort_eq, hl']
        simpa using hl'

/-- If the candidates before index `k ≤ 4` are all live-held and candidate
`k` is not, `calculate_janus_ports` accepts candidate `k`, reclaiming its
lock when one is present and removable. -/
lemma calculate_accepts (fs : FsState) (basedir : String) (k : Nat) (hk : k ≤ 4)
    (hprev : ∀ j : Nat, j < k → liveHeld fs (cand basedir j) = true)
    (hfree : liveHeld fs (cand basedir k) = false) :
    calculate_janus_ports fs basedir =
      ⟨cand basedir k,
       if fs.lock (cand basedir k) ≠ .absent ∧ fs.removeOk (cand basedir k) = true
       then removeLock fs (cand basedir k) else fs,
       false⟩ := by
  interval_cases k
  · exact probeFrom_accept fs (candidateBase basedir) [] [1, 2, 3, 4] 0
      (by intro i hi; simp at hi) hfree
  · exact probeFrom_accept fs (candidateBase basedir) [0] [2, 3, 4] 1
      (by intro i hi; fin_cases hi <;> exact hprev _ (by norm_num)) hfree
  · exact probeFrom_accept fs (candidateBase basedir) [0, 1] [3, 4] 2
      (by intro i hi; fin_cases hi <;> exact hprev _ (by norm_num)) hfree
  · exact probeFrom_accept fs (candidateBase basedir) [0, 1, 2] [4] 3
      (by intro i hi; fin_cases hi <;> exact hprev _ (by norm_num)) hfree
  · exact probeFrom_accept fs (candidateBase basedir) [0, 1, 2, 3] [] 4
      (by intro i hi; fin_cases hi <;> exact hprev _ (by norm_num)) hfree

/-! ## Claim theorems -/

/-- **C1** (corrected): when the monitoring task observes end-of-stream on
the gateway's output it reaps the exit code (`janus_proc.wait()`), logs a
warning and terminates — identically whether or not the shutdown flag was
set beforehand; it makes no report to the error-reporting collaborator
(which is invoked only when an exception occurs inside the monitor body). -/
theorem c1_monitor_eof_uniform (flag : Bool) (p : ProcRun) :
    (run_janus_forever flag (.ok p)).reapedExit = some p.exitCode ∧
    (run_janus_forever flag (.ok p)).sentryCaptured = false ∧
    (run_janus_forever flag (.ok p)).escaped = false ∧
    run_janus_forever flag (.ok p) = run_janus_forever true (.ok p) ∧
    run_janus_forever flag (.ok p) = run_janus_forever false (.ok p) := by
  simp [run_janus_forever]

/-- **C1** counterexample: with the shutdown flag clear, the monitor
observing end-of-stream (gateway pid 1, no output, exit code 7) does not
report to the error-reporting collaborator, and behaves exactly as it does
with the flag set — refuting the claimed `Crashed`-with-report transition. -/
theorem c1_counterexample :
    (run_janus_forever false (.ok ⟨1, [], 7⟩)).sentryCaptured = false ∧
    (run_janus_forever false (.ok ⟨1, [], 7⟩)).reapedExit = some 7 ∧
    run_janus_forever false (.ok ⟨1, [], 7⟩) = run_janus_forever true (.ok ⟨1, [], 7⟩) := by
  decide

/-- **C2** (confirmed): when the candidate base port's lock holder is
alive, allocation probes the further candidates `base + k·gap` (k = 1..4)
with the same free/stale test, returns the first free-or-stale candidate,
never returns a live-held port except through the degraded fallback, and
when all five probed candidates are live-held it returns the candidate base
port with the degraded-mode warning. -/
theorem c2_live_collision_probe (fs : FsState) (basedir : String)
    (hlive : liveHeld fs (cand basedir 0) = true) :
    (∀ k : Nat, 1 ≤ k → k ≤ 4 →
        (∀ j : Nat, 1 ≤ j → j < k → liveHeld fs (cand basedir j) = true) →
        liveHeld fs (cand basedir k) = false →
        (calculate_janus_ports fs basedir).port = cand basedir k ∧
        (calculate_janus_ports fs basedir).degradedWarning = false) ∧
    ((calculate_janus_ports fs basedir).degradedWarning = false →
        liveHeld fs (calculate_janus_ports fs basedir).port = false) ∧
    ((∀ k : Nat, k ≤ 4 → liveHeld fs (cand basedir k) = true) →
        (calculate_janus_ports fs basedir).port = candidateBase basedir ∧
        (calculate_janus_ports fs basedir).degradedWarning = true) := by
  have hcalc : calculate_janus_ports fs basedir =
      probeFrom fs (candidateBase basedir) [0, 1, 2, 3, 4] := rfl
  refine ⟨?_, ?_, ?_⟩
  · intro k hk1 hk4 hprev hfree
    have hprev' : ∀ j : Nat, j < k → liveHeld fs (cand basedir j) = true := by
      intro j hj
      rcases Nat.eq_zero_or_pos j with h0 | h1
      · subst h0; exact hlive
      · exact hprev j h1 hj
    rw [calculate_accepts fs basedir k hk4 hprev' hfree]
    exact ⟨rfl, rfl⟩
  · intro h
    rw [hcalc] at h ⊢
    exact probeFrom_not_live fs (candidateBase basedir) [0, 1, 2, 3, 4] h
  · intro hall
    have key := probeFrom_all_live fs (candidateBase basedir) [0, 1, 2, 3, 4]
      (by intro i hi; fin_cases hi <;> exact hall _ (by norm_num))
    rw [hcalc, key]
    exact ⟨rfl, rfl⟩

/-- **C2** witness: identity `""` (candidate base 17730) with a live lock
(pid 7) at 17730 and port 17750 free. -/
theorem c2_live_collision_probe_witness :
    liveHeld fsLiveAtFloor (cand "" 0) = true ∧
    ((∀ k : Nat, 1 ≤ k → k ≤ 4 →
        (∀ j : Nat, 1 ≤ j → j < k → liveHeld fsLiveAtFloor (cand "" j) = true) →
        liveHeld fsLiveAtFloor (cand "" k) = false →
        (calculate_janus_ports fsLiveAtFloor "").port = cand "" k ∧
        (calculate_janus_ports fsLiveAtFloor "").degradedWarning = false) ∧
    ((calculate_janus_ports fsLiveAtFloor "").degradedWarning = false →
        liveHeld fsLiveAtFloor (calculate_janus_ports fsLiveAtFloor "").port = false) ∧
    ((∀ k : Nat, k ≤ 4 → liveHeld fsLiveAtFloor (cand "" k) = true) →
        (calculate_janus_ports fsLiveAtFloor "").port = candidateBase "" ∧
        (calculate_janus_ports fsLiveAtFloor "").degradedWarning = true)) :=
  ⟨by decide, c2_live_collision_probe fsLiveAtFloor "" (by decide)⟩

/-- **C3** (confirmed): for a non-empty identity the candidate base port is
17730 plus 20 times the slot, where the slot is the 64-bit prefix of the
identity's SHA-256 digest reduced modulo 10; hence the slot lies in [0,10)
and the base port in {17730, 17750, …, 17910}; and the admin port is the
allocated signaling port plus 1. -/
theorem c3_port_derivation (fs : FsState) (basedir : String) (h : basedir ≠ "") :
    get_instance_port_offset basedir =
      sha256HexPrefix16 (strEncode basedir) % 10 * JANUS_PORT_GAP ∧
    sha256HexPrefix16 (strEncode basedir) % 10 < 10 ∧
    candidateBase basedir = 17730 + 20 * (sha256HexPrefix16 (strEncode basedir) % 10) ∧
    17730 ≤ candidateBase basedir ∧ candidateBase basedir ≤ 17910 ∧
    JANUS_ADMIN_WS_PORT fs basedir = JANUS_WS_PORT fs basedir + 1 := by
  have hoff : get_instance_port_offset basedir =
      sha256HexPrefix16 (strEncode basedir) % 10 * JANUS_PORT_GAP := by
    unfold get_instance_port_offset
    simp [h]
  have hlt : sha256HexPrefix16 (strEncode basedir) % 10 < 10 :=
    Nat.mod_lt _ (by norm_num)
  refine ⟨hoff, hlt, ?_, ?_, ?_, rfl⟩
  · unfold candidateBase JANUS_BASE_PORT
    rw [hoff]
    unfold JANUS_PORT_GAP
    ring
  · unfold candidateBase JANUS_BASE_PORT
    omega
  · unfold candidateBase JANUS_BASE_PORT
    rw [hoff]
    unfold JANUS_PORT_GAP
    omega

/-- **C3** witness: the spec's scenario identity `/home/user/.octoprint`. -/
theorem c3_port_derivation_witness :
    ("/home/user/.octoprint" : String) ≠ "" ∧
    (get_instance_port_offset "/home/user/.octoprint" =
      sha256HexPrefix16 (strEncode "/home/user/.octoprint") % 10 * JANUS_PORT_GAP ∧
    sha256HexPrefix16 (strEncode "/home/user/.octoprint") % 10 < 10 ∧
    candidateBase "/home/user/.octoprint" =
      17730 + 20 * (sha256HexPrefix16 (strEncode "/home/user/.octoprint") % 10) ∧
    17730 ≤ candidateBase "/home/user/.octoprint" ∧
    candidateBase "/home/user/.octoprint" ≤ 17910 ∧
    JANUS_ADMIN_WS_PORT emptyFs "/home/user/.octoprint" =
      JANUS_WS_PORT emptyFs "/home/user/.octoprint" + 1) :=
  ⟨by decide, c3_port_derivation emptyFs "/home/user/.octoprint" (by decide)⟩

/-- **C4** (confirmed): a probed candidate whose lock file records a dead
pid has its lock deleted (when the filesystem permits the removal) and the
candidate port is returned; a candidate with corrupt lock content is
likewise treated as stale — removed and accepted — and never as a live
collision (its probe test never says "continue"). `k` is the candidate's
position in the probe sequence; the loop reaches it because all earlier
candidates are live-held. -/
theorem c4_stale_and_corrupt_locks (fs : FsState) (basedir : String) (k : Nat)
    (hk : k ≤ 4)
    (hprev : ∀ j : Nat, j < k → liveHeld fs (cand basedir j) = true) :
    (∀ pid : Int, fs.lock (cand basedir k) = .valid pid → fs.alive pid = false →
        (calculate_janus_ports fs basedir).port = cand basedir k ∧
        (calculate_janus_ports fs basedir).degradedWarning = false ∧
        (fs.removeOk (cand basedir k) = true →
          (calculate_janus_ports fs basedir).fs.lock (cand basedir k) = .absent)) ∧
    (fs.lock (cand basedir k) = .corrupt →
        tryPort fs (cand basedir k) ≠ none ∧
        (calculate_janus_ports fs basedir).port = cand basedir k ∧
        (calculate_janus_ports fs basedir).degradedWarning = false ∧
        (fs.removeOk (cand basedir k) = true →
          (calculate_janus_ports fs basedir).fs.lock (cand basedir k) = .absent)) := by
  constructor
  · intro pid hlock hdead
    have hfree : liveHeld fs (cand basedir k) = false := by
      simp [liveHeld, hlock, hdead]
    rw [calculate_accepts fs basedir k hk hprev hfree]
    refine ⟨rfl, rfl, fun hrm => ?_⟩
    simp [hlock, hrm, removeLock]
  · intro hlock
    have hfree : liveHeld fs (cand basedir k) = false := by
      simp [liveHeld, hlock]
    have hns : tryPort fs (cand basedir k) ≠ none := by
      simp [tryPort_eq, hfree]
    rw [calculate_accepts fs basedir k hk hprev hfree]
    refine ⟨hns, rfl, rfl, fun hrm => ?_⟩
    simp [hlock, hrm, removeLock]

/-- **C4** witness: identity `""`, a stale lock (dead pid 4242) at the
first candidate port 17730 (`k = 0`). -/
theorem c4_stale_and_corrupt_locks_witness :
    (0 : Nat) ≤ 4 ∧
    ((∀ pid : Int, fsStaleAtFloor.lock (cand "" 0) = .valid pid →
        fsStaleAtFloor.alive pid = false →
        (calculate_janus_ports fsStaleAtFloor "").port = cand "" 0 ∧
        (calculate_janus_ports fsStaleAtFloor "").degradedWarning = false ∧
        (fsStaleAtFloor.removeOk (cand "" 0) = true →
          (calculate_janus_ports fsStaleAtFloor "").fs.lock (cand "" 0) = .absent)) ∧
    (fsStaleAtFloor.lock (cand "" 0) = .corrupt →
        tryPort fsStaleAtFloor (cand "" 0) ≠ none ∧
        (calculate_janus_ports fsStaleAtFloor "").port = cand "" 0 ∧
        (calculate_janus_ports fsStaleAtFloor "").degradedWarning = false ∧
        (fsStaleAtFloor.removeOk (cand "" 0) = true →
          (calculate_janus_ports fsStaleAtFloor "").fs.lock (cand "" 0) = .absent))) :=
  ⟨by decide,
   c4_stale_and_corrupt_locks fsStaleAtFloor "" 0 (by decide)
     (fun j hj => absurd hj (by omega))⟩

set_option maxRecDepth 400000 in
/-- **C5** counterexample: identity `/home/user/.octoprint` (candidate base
17850) with stale locks — dead pid 4242 — at the first two candidate ports
17850 and 17870.  Allocation deletes only the first lock and returns 17850;
the second stale lock is still present afterwards, refuting "allocation
reclaims both stale lock files". -/
theorem c5_counterexample :
    (calculate_janus_ports fsTwoStale "/home/user/.octoprint").port = 17850 ∧
    (calculate_janus_ports fsTwoStale "/home/user/.octoprint").fs.lock 17850 = .absent ∧
    (calculate_janus_ports fsTwoStale "/home/user/.octoprint").fs.lock 17870 = .valid 4242 ∧
    (calculate_janus_ports fsTwoStale "/home/user/.octoprint").fs.lock 17870 ≠ .absent := by
  decide

/-- **C5** (corrected): with stale lock files at the first and second
candidate ports, allocation deletes the first candidate's stale lock and
returns the first candidate without probing further; the second candidate's
stale lock is left in place (only locks actually probed are reclaimed). -/
theorem c5_first_stale_only (fs : FsState) (basedir : String) (pid1 pid2 : Int)
    (h1 : fs.lock (cand basedir 0) = .valid pid1) (ha1 : fs.alive pid1 = false)
    (h2 : fs.lock (cand basedir 1) = .valid pid2) (ha2 : fs.alive pid2 = false)
    (hr : fs.removeOk (cand basedir 0) = true) :
    (calculate_janus_ports fs basedir).port = cand basedir 0 ∧
    (calculate_janus_ports fs basedir).degradedWarning = false ∧
    (calculate_janus_ports fs basedir).fs.lock (cand basedir 0) = .absent ∧
    (calculate_janus_ports fs basedir).fs.lock (cand basedir 1) = .valid pid2 := by
  have hfree : liveHeld fs (cand basedir 0) = false := by
    simp [liveHeld, h1, ha1]
  have hne : cand basedir 1 ≠ cand basedir 0 := by
    simp [cand, JANUS_PORT_GAP]
  rw [calculate_accepts fs basedir 0 (by norm_num) (fun j hj => absurd hj (by omega)) hfree]
  refine ⟨rfl, rfl, ?_, ?_⟩
  · simp [h1, hr, removeLock]
  · simp [h1, hr, removeLock, hne]
    exact h2

/-- **C5** amended-claim witness: identity `""`, stale locks (dead pid
4242) at candidate ports 17730 and 17750. -/
theorem c5_first_stale_only_witness :
    fsTwoStaleAtFloor.lock (cand "" 0) = .valid 4242 ∧
    fsTwoStaleAtFloor.alive 4242 = false ∧
    fsTwoStaleAtFloor.lock (cand "" 1) = .valid 4242 ∧
    fsTwoStaleAtFloor.removeOk (cand "" 0) = true ∧
    ((calculate_janus_ports fsTwoStaleAtFloor "").port = cand "" 0 ∧
    (calculate_janus_ports fsTwoStaleAtFloor "").degradedWarning = false ∧
    (calculate_janus_ports fsTwoStaleAtFloor "").fs.lock (cand "" 0) = .absent ∧
    (calculate_janus_ports fsTwoStaleAtFloor "").fs.lock (cand "" 1) = .valid 4242) :=
  ⟨by decide, by decide, by decide, by decide,
   c5_first_stale_only fsTwoStaleAtFloor "" 4242 4242
     (by decide) (by decide) (by decide) (by decide) (by decide)⟩

/-- **C6** counterexample: with no pre-existing lock file and an
unspawnable executable, `start` does not surface the spawn failure to its
caller — the failure is captured by Sentry on the background monitor thread
— refuting "a SpawnError propagates synchronously to the caller of start"
(the claim's "no lock file is written" half does hold). -/
theorem c6_counterexample :
    (start initJanusConn ⟨none, true, true, true, true⟩ .fail).spawnErrorRaisedToCaller
      = false ∧
    (start initJanusConn ⟨none, true, true, true, true⟩ .fail).monitor.sentryCaptured
      = true ∧
    (start initJanusConn ⟨none, true, true, true, true⟩ .fail).monitor.lockWrittenPid
      = none ∧
    (start initJanusConn ⟨none, true, true, true, true⟩ .fail).world.lockContent
      = none := by
  decide

/-- **C6** (corrected): if the gateway executable is missing or
unspawnable, the spawn failure occurs on the background monitor thread,
where it is caught and reported to the error-reporting collaborator; no
error propagates synchronously to the caller of `start`; no lock (pid)
file is written (and if no lock file existed before, none exists after). -/
theorem c6_spawn_failure (st : JanusConnState) (w : LockWorld) :
    (start st w .fail).monitor.lockWrittenPid = none ∧
    (start st w .fail).monitor.sentryCaptured = true ∧
    (start st w .fail).monitor.escaped = false ∧
    (start st w .fail).spawnErrorRaisedToCaller = false ∧
    (w.lockContent = none → (start st w .fail).world.lockContent = none) := by
  refine ⟨rfl, rfl, rfl, rfl, fun h => ?_⟩
  simp [start, run_janus_forever, kill_janus_if_running, h]

/-- **C6** amended-claim witness: fresh connection, no pre-existing lock
file, unspawnable executable. -/
theorem c6_spawn_failure_witness :
    (start initJanusConn ⟨none, true, true, true, true⟩ .fail).monitor.lockWrittenPid
      = none ∧
    (start initJanusConn ⟨none, true, true, true, true⟩ .fail).monitor.sentryCaptured
      = true ∧
    (start initJanusConn ⟨none, true, true, true, true⟩ .fail).monitor.escaped = false ∧
    (start initJanusConn ⟨none, true, true, true, true⟩ .fail).spawnErrorRaisedToCaller
      = false ∧
    ((⟨none, true, true, true, true⟩ : LockWorld).lockContent = none →
      (start initJanusConn ⟨none, true, true, true, true⟩ .fail).world.lockContent
        = none) :=
  c6_spawn_failure initJanusConn ⟨none, true, true, true, true⟩

/-- **C7** counterexample: an inbound message on which `json.loads` fails
is not forwarded upstream at all (it is dropped with a Sentry report),
refuting "every inbound message from the gateway is forwarded … without
being parsed or validated". -/
theorem c7_counterexample :
    (process_janus_msg (fun _ => false) "not json").forwardedEnvelope = none ∧
    (process_janus_msg (fun _ => false) "not json").sentryCaptured = true ∧
    (process_janus_msg (fun _ => false) "not json").escaped = false := by
  decide

/-- **C7** (corrected): every inbound message is first parsed as JSON; a
message that parses is forwarded to the upstream sink as the raw payload
wrapped in the tagged envelope `{janus: raw}`, its content otherwise
untouched; a parse failure is caught and reported to the error-reporting
collaborator and the message is dropped (not forwarded); in neither case
does an exception escape the relay. -/
theorem c7_relay_parses_then_forwards (parseOk : String → Bool) (raw : String) :
    (process_janus_msg parseOk raw).escaped = false ∧
    (parseOk raw = true →
      (process_janus_msg parseOk raw).forwardedEnvelope = some ⟨raw⟩ ∧
      (process_janus_msg parseOk raw).sentryCaptured = false) ∧
    (parseOk raw = false →
      (process_janus_msg parseOk raw).forwardedEnvelope = none ∧
      (process_janus_msg parseOk raw).sentryCaptured = true) := by
  unfold process_janus_msg
  cases h : parseOk raw <;> simp [h]

/-- **C7** amended-claim witness: a parser accepting everything, on the
message `"hello"`. -/
theorem c7_relay_parses_then_forwards_witness :
    (process_janus_msg (fun _ => true) "hello").escaped = false ∧
    ((fun _ => true : String → Bool) "hello" = true →
      (process_janus_msg (fun _ => true) "hello").forwardedEnvelope = some ⟨"hello"⟩ ∧
      (process_janus_msg (fun _ => true) "hello").sentryCaptured = false) ∧
    ((fun _ => true : String → Bool) "hello" = false →
      (process_janus_msg (fun _ => true) "hello").forwardedEnvelope = none ∧
      (process_janus_msg (fun _ => true) "hello").sentryCaptured = true) :=
  c7_relay_parses_then_forwards (fun _ => true) "hello"

/-- **C8** (confirmed): `shutdown()` is idempotent — after a first call
whose lock removal succeeded, a second call signals no process (the reclaim
step finds no lock file); and `shutdown()` before any `start()` (fresh
connection state, no lock file) succeeds — no exception, no signaling —
with no lock file created or removed (the world is unchanged). -/
theorem c8_shutdown_idempotent (st : JanusConnState) (w : LockWorld)
    (hrem : w.removeOk = true) (w0 : LockWorld) (h0 : w0.lockContent = none) :
    (shutdown (shutdown st w).1 (shutdown st w).2.world).2.signaledPid = none ∧
    (shutdown (shutdown st w).1 (shutdown st w).2.world).2.escaped = false ∧
    (shutdown initJanusConn w0).2.signaledPid = none ∧
    (shutdown initJanusConn w0).2.escaped = false ∧
    (shutdown initJanusConn w0).2.world = w0 := by
  refine ⟨?_, rfl, ?_, rfl, ?_⟩
  · cases h : w.lockContent <;> simp [shutdown, kill_janus_if_running, h, hrem]
  · simp [shutdown, kill_janus_if_running, h0]
  · simp [shutdown, kill_janus_if_running, h0]

/-- **C8** witness: a first shutdown over a lock file `"123"` with
removal succeeding, and a pre-start shutdown over an absent lock file. -/
theorem c8_shutdown_idempotent_witness :
    (⟨some "123", true, true, true, true⟩ : LockWorld).removeOk = true ∧
    (⟨none, true, true, true, true⟩ : LockWorld).lockContent = none ∧
    ((shutdown (shutdown initJanusConn ⟨some "123", true, true, true, true⟩).1
        (shutdown initJanusConn ⟨some "123", true, true, true, true⟩).2.world).2.signaledPid
      = none ∧
    (shutdown (shutdown initJanusConn ⟨some "123", true, true, true, true⟩).1
        (shutdown initJanusConn ⟨some "123", true, true, true, true⟩).2.world).2.escaped
      = false ∧
    (shutdown initJanusConn ⟨none, true, true, true, true⟩).2.signaledPid = none ∧
    (shutdown initJanusConn ⟨none, true, true, true, true⟩).2.escaped = false ∧
    (shutdown initJanusConn ⟨none, true, true, true, true⟩).2.world
      = ⟨none, true, true, true, true⟩) :=
  ⟨by decide, by decide,
   c8_shutdown_idempotent initJanusConn ⟨some "123", true, true, true, true⟩
     (by decide) ⟨none, true, true, true, true⟩ (by decide)⟩

/-- **C9** (confirmed): `pass_to_janus` on a connection that is not
connected returns with the state unchanged — nothing sent, nothing queued,
no error raised (the embedding is a total function). -/
theorem c9_send_when_disconnected (st : JanusConnState) (msg : String)
    (h : connected st = false) :
    pass_to_janus st msg = st := by
  simp [pass_to_janus, h]

/-- **C9** witness: a freshly initialized connection (no websocket) and the
message `"m"`. -/
theorem c9_send_when_disconnected_witness :
    connected initJanusConn = false ∧
    pass_to_janus initJanusConn "m" = initJanusConn :=
  ⟨by decide, c9_send_when_disconnected initJanusConn "m" (by decide)⟩

/-- **C10** (confirmed): the lock-reclaim step `kill_janus_if_running`
never lets an exception escape to its caller; any failure to read the pid
file, signal the recorded pid, or wait for the port to close is caught and
logged as a warning; the lock-file removal is then attempted
unconditionally, and a failing removal is silently swallowed (leaving the
world unchanged, still without raising). -/
theorem c10_reclaim_never_raises (w : LockWorld) :
    (kill_janus_if_running w).escaped = false ∧
    (kill_janus_if_running w).removeAttempted = true ∧
    ((w.lockContent = none ∨ w.readOk = false ∨ w.killOk = false ∨ w.waitOk = false) →
      (kill_janus_if_running w).warned = true) ∧
    (w.removeOk = false → (kill_janus_if_running w).world = w) := by
  rcases w with ⟨lc, r, k, wt, rm⟩
  cases lc <;> cases r <;> cases k <;> cases wt <;> cases rm <;>
    simp [kill_janus_if_running]

/-- **C10** witness: a lock file `"abc"` whose read and removal both
fail. -/
theorem c10_reclaim_never_raises_witness :
    (kill_janus_if_running ⟨some "abc", false, true, true, false⟩).escaped = false ∧
    (kill_janus_if_running ⟨some "abc", false, true, true, false⟩).removeAttempted
      = true ∧
    (((⟨some "abc", false, true, true, false⟩ : LockWorld).lockContent = none ∨
      (⟨some "abc", false, true, true, false⟩ : LockWorld).readOk = false ∨
      (⟨some "abc", false, true, true, false⟩ : LockWorld).killOk = false ∨
      (⟨some "abc", false, true, true, false⟩ : LockWorld).waitOk = false) →
      (kill_janus_if_running ⟨some "abc", false, true, true, false⟩).warned = true) ∧
    ((⟨some "abc", false, true, true, false⟩ : LockWorld).removeOk = false →
      (kill_janus_if_running ⟨some "abc", false, true, true, false⟩).world
        = ⟨some "abc", false, true, true, false⟩) :=
  c10_reclaim_never_raises ⟨some "abc", false, true, true, false⟩

end ObicoJanus
